import Mathlib

/-!
Verification of the nimble-leads-capture-form repository: a shallow
embedding of the session utility (`src/unnamed/part_000`), the submission
handler (`src/src/components/LeadCaptureForm.tsx`, `handleSubmit`), and the
industry-column migration
(`src/supabase/migrations/20250710135108-....sql`), with theorems settling
the specification's claims about them.
-/

namespace LeadCapture

/-! ## Session Identity Provider (src/unnamed/part_000) -/

/-- The single namespaced localStorage slot `lead_capture_session_id`:
`none` models `localStorage.getItem` returning `null`. -/
abbrev Storage : Type := Option String

/-- `generateSessionId`: `` `session_${Date.now()}_${Math.random().toString(36).substr(2, 9)}` ``.
The time component (`Date.now()`, a decimal digit string) and the random
suffix (base-36 characters, hence underscore-free) are parameters supplied
by the environment. -/
def generateSessionId (time rand : String) : String :=
  "session_" ++ time ++ "_" ++ rand

/-- JavaScript falsiness of `string | null` as used by `if (!sessionId)`:
`null` and the empty string are falsy. -/
def jsFalsy : Storage → Bool
  | none => true
  | some s => s.isEmpty

/-- `getOrCreateSessionId`: read the stored id; if it is absent (or falsy),
generate a fresh one, write it back, and return it; otherwise return the
stored value unchanged. Returns the id together with the updated storage. -/
def getOrCreateSessionId (time rand : String) (st : Storage) : String × Storage :=
  match st with
  | none => (generateSessionId time rand, some (generateSessionId time rand))
  | some s =>
      if s.isEmpty then (generateSessionId time rand, some (generateSessionId time rand))
      else (s, some s)

/-- `clearSessionId`: `localStorage.removeItem('lead_capture_session_id')`. -/
def clearSessionId (_st : Storage) : Storage := none

theorem data_append (s t : String) : (s ++ t).data = s.data ++ t.data := by
  cases s; cases t; rfl

theorem generateSessionId_data (time rand : String) :
    (generateSessionId time rand).data =
      "session_".data ++ (time.data ++ ('_' :: rand.data)) := by
  have h : "_".data = ['_'] := rfl
  simp [generateSessionId, data_append, List.append_assoc, h]

theorem generateSessionId_not_isEmpty (time rand : String) :
    (generateSessionId time rand).isEmpty = false := by
  rw [Bool.eq_false_iff]
  intro h
  rw [String.isEmpty_iff] at h
  have hd : (generateSessionId time rand).data = [] := by rw [h]
  rw [generateSessionId_data] at hd
  simp at hd

theorem getOrCreateSessionId_fst_not_isEmpty (time rand : String) (st : Storage) :
    ((getOrCreateSessionId time rand st).1).isEmpty = false := by
  match st with
  | none => exact generateSessionId_not_isEmpty time rand
  | some s =>
      by_cases h : s.isEmpty
      · simp [getOrCreateSessionId, h, generateSessionId_not_isEmpty]
      · simp [getOrCreateSessionId, h]

theorem getOrCreateSessionId_writes_back (time rand : String) (st : Storage) :
    (getOrCreateSessionId time rand st).2 = some (getOrCreateSessionId time rand st).1 := by
  match st with
  | none => rfl
  | some s =>
      by_cases h : s.isEmpty
      · simp [getOrCreateSessionId, h]
      · simp [getOrCreateSessionId, h]

/-! ## Data model of the form component (src/src/components/LeadCaptureForm.tsx) -/

/-- The three controlled form fields (`useState({ name: '', email: '', industry: '' })`). -/
structure FormData where
  name : String
  email : String
  industry : String
deriving Repr, DecidableEq

/-- A field-level validation error: pair of field name and message. -/
structure ValidationError where
  field : String
  message : String
deriving Repr, DecidableEq

/-- The lead record built in `handleSubmit` (lines 66-72). -/
structure Lead where
  name : String
  email : String
  industry : String
  submitted_at : String
  session_id : String
deriving Repr, DecidableEq

/-- Modelled from the spec: the Global Submission State Store (`useLeadStore`,
whose source `@/lib/lead-store` is not under src/): a `submitted` flag and an
ordered sequence of the leads submitted in the current page lifetime;
`addLead` appends, `setSubmitted` sets the flag. -/
structure LeadStore where
  submitted : Bool
  sessionLeads : List Lead
deriving Repr, DecidableEq

/-- The component's state: form fields, per-field validation errors, the
in-flight flag `isSubmitting`, the global store, and the localStorage slot
read by the Session Identity Provider. -/
structure ComponentState where
  formData : FormData
  validationErrors : List ValidationError
  isSubmitting : Bool
  store : LeadStore
  storage : Storage
deriving Repr, DecidableEq

/-- The environment of one submission attempt: whether the database insert
returns an error, whether the notification invoke returns an error, the
`new Date().toISOString()` timestamp, and the `Date.now()` / `Math.random()`
components a fresh session id would be generated from. -/
structure Env where
  dbError : Bool
  emailError : Bool
  nowIso : String
  genTime : String
  genRand : String
deriving Repr, DecidableEq

/-- Which remote calls one run of the handler performed, and whether the
in-flight flag was ever set to true during the run. -/
structure Trace where
  dbCalled : Bool
  emailCalled : Bool
  inFlightSet : Bool
deriving Repr, DecidableEq

/-! ## Form Validator (modelled from the spec) -/

/-- The enumerated industry categories, from the `SelectItem` values of
LeadCaptureForm.tsx (lines 161-168). -/
def industries : List String :=
  ["technology", "healthcare", "finance", "education",
   "retail", "manufacturing", "consulting", "other"]

/-- Modelled from the spec: "empty after trimming" — every character is
whitespace (equivalently, the trimmed string is empty). -/
def isBlank (s : String) : Bool :=
  s.data.all Char.isWhitespace

/-- Split a character list at its first `'@'`: the local part and the rest. -/
def emailParts : List Char → Option (List Char × List Char)
  | [] => none
  | c :: rest =>
      if c = '@' then some ([], rest)
      else (emailParts rest).map (fun p => (c :: p.1, p.2))

/-- Modelled from the spec: a "standard email shape" — exactly one `'@'`
separating a non-empty local part from a non-empty domain that contains a
dot and neither starts nor ends with one (the exact grammar is an
unspecified policy detail). -/
def isEmailShaped (e : String) : Bool :=
  match emailParts e.data with
  | some (l, d) =>
      (!l.isEmpty) && (!d.isEmpty) && (!d.contains '@') &&
      d.contains '.' && (d.head? ≠ some '.') && (d.getLast? ≠ some '.')
  | none => false

/-- Modelled from the spec: `validateLeadForm` (`@/lib/validation`, not under
src/): `name` fails `required` if empty after trimming; `email` fails
`required` if empty, `format` if non-empty but not email-shaped; `industry`
fails `required` if not one of the enumerated categories. Returns the empty
sequence iff all three pass. -/
def validateLeadForm (f : FormData) : List ValidationError :=
  (if isBlank f.name then [⟨"name", "Name is required"⟩] else []) ++
  (if f.email.isEmpty then [⟨"email", "Email is required"⟩]
   else if isEmailShaped f.email then []
   else [⟨"email", "Please enter a valid email address"⟩]) ++
  (if industries.contains f.industry then []
   else [⟨"industry", "Please select your industry"⟩])

/-! ## Submission Orchestrator (`handleSubmit`, LeadCaptureForm.tsx lines 21-84) -/

/-- One run of `handleSubmit`. Validation errors are stored; if there are
none, the in-flight flag is set, the session id is read or created, the
database insert is attempted — on error the handler throws, the `catch`
only logs, and the `finally` clears the in-flight flag — otherwise the
notification function is invoked (its error only logged), the lead is
appended via `addLead`, `setSubmitted(true)` runs, and the fields are
reset. Returns the new state and the trace of remote calls. -/
def handleSubmit (env : Env) (s : ComponentState) : ComponentState × Trace :=
  let errors := validateLeadForm s.formData
  let s1 := { s with validationErrors := errors }
  if errors.length = 0 then
    let idSt := getOrCreateSessionId env.genTime env.genRand s1.storage
    let s2 := { s1 with isSubmitting := true, storage := idSt.2 }
    if env.dbError then
      ({ s2 with isSubmitting := false },
       { dbCalled := true, emailCalled := false, inFlightSet := true })
    else
      let lead : Lead :=
        { name := s2.formData.name, email := s2.formData.email,
          industry := s2.formData.industry, submitted_at := env.nowIso,
          session_id := idSt.1 }
      ({ s2 with
          store := { submitted := true,
                     sessionLeads := s2.store.sessionLeads ++ [lead] },
          formData := { name := "", email := "", industry := "" },
          isSubmitting := false },
       { dbCalled := true, emailCalled := true, inFlightSet := true })
  else
    (s1, { dbCalled := false, emailCalled := false, inFlightSet := false })

/-- The submit trigger as exposed to the user: the submit button is
`disabled={isSubmitting}` (LeadCaptureForm.tsx lines 177-193), so a submit
event while a submission is in flight is ignored; otherwise it runs
`handleSubmit`. -/
def submitTrigger (env : Env) (s : ComponentState) : ComponentState × Trace :=
  if s.isSubmitting then
    (s, { dbCalled := false, emailCalled := false, inFlightSet := false })
  else handleSubmit env s

/-! ## Industry-column migration (src/supabase/migrations/20250710135108-...sql) -/

/-- A row of `public.leads` after the industry column exists: the rest of
the row is abstracted as `payload`, the new TEXT column is nullable. -/
structure Row (α : Type) where
  payload : α
  industry : Option String
deriving Repr, DecidableEq

/-- The `public.leads` table with the schema attributes the migration
touches: its rows, whether `industry` is NOT NULL, and its default. -/
structure LeadsTable (α : Type) where
  rows : List (Row α)
  industryNotNull : Bool
  industryDefault : Option String
deriving Repr, DecidableEq

/-- Phase 1: `ALTER TABLE public.leads ADD COLUMN industry TEXT` — every
pre-existing row gains a null industry. -/
def addIndustryColumn {α : Type} (pre : List α) : List (Row α) :=
  pre.map (fun a => { payload := a, industry := none })

/-- Phase 2: `UPDATE public.leads SET industry = 'Other' WHERE industry IS NULL`. -/
def backfillIndustry {α : Type} (rows : List (Row α)) : List (Row α) :=
  rows.map (fun r => if r.industry = none then { r with industry := some "Other" } else r)

/-- Phase 3: `ALTER COLUMN industry SET NOT NULL` — fails (returns `none`)
if any row still has a null industry. -/
def setIndustryNotNull {α : Type} (t : LeadsTable α) : Option (LeadsTable α) :=
  if t.rows.all (fun r => r.industry.isSome) then some { t with industryNotNull := true }
  else none

/-- Phase 4: `ALTER COLUMN industry SET DEFAULT 'Other'`. -/
def setIndustryDefault {α : Type} (t : LeadsTable α) : LeadsTable α :=
  { t with industryDefault := some "Other" }

/-- The whole migration, the four phases in the order of the SQL file,
applied to any pre-existing `leads` table state. -/
def migration {α : Type} (pre : List α) : Option (LeadsTable α) :=
  let t1 : LeadsTable α :=
    { rows := addIndustryColumn pre, industryNotNull := false, industryDefault := none }
  let t2 := { t1 with rows := backfillIndustry t1.rows }
  (setIndustryNotNull t2).map setIndustryDefault

/-! ## Helper lemmas -/

theorem string_eq_of_data_eq {s t : String} (h : s.data = t.data) : s = t := by
  cases s; cases t; exact congrArg String.mk h

theorem append_cons_sep_inj {α : Type} (c : α) (a₁ : List α) :
    ∀ (a₂ b₁ b₂ : List α), c ∉ a₁ → c ∉ a₂ →
      a₁ ++ c :: b₁ = a₂ ++ c :: b₂ → a₁ = a₂ ∧ b₁ = b₂ := by
  induction a₁ with
  | nil =>
      intro a₂ b₁ b₂ _ h₂ heq
      cases a₂ with
      | nil => simpa using heq
      | cons y u =>
          simp only [List.nil_append, List.cons_append, List.cons.injEq] at heq
          obtain ⟨rfl, -⟩ := heq
          exact absurd (List.mem_cons_self _ _) h₂
  | cons x t ih =>
      intro a₂ b₁ b₂ h₁ h₂ heq
      cases a₂ with
      | nil =>
          simp only [List.nil_append, List.cons_append, List.cons.injEq] at heq
          obtain ⟨rfl, -⟩ := heq
          exact absurd (List.mem_cons_self _ _) h₁
      | cons y u =>
          simp only [List.cons_append, List.cons.injEq] at heq
          obtain ⟨rfl, heq2⟩ := heq
          have h₁' : c ∉ t := fun h => h₁ (List.mem_cons_of_mem _ h)
          have h₂' : c ∉ u := fun h => h₂ (List.mem_cons_of_mem _ h)
          obtain ⟨he, hb⟩ := ih u b₁ b₂ h₁' h₂' heq2
          exact ⟨by rw [he], hb⟩

/-- Two generated session ids with distinct underscore-free time components
are distinct strings. -/
theorem generateSessionId_ne_of_time_ne {t₁ r₁ t₂ r₂ : String}
    (h₁ : '_' ∉ t₁.data) (h₂ : '_' ∉ t₂.data) (hne : t₁ ≠ t₂) :
    generateSessionId t₁ r₁ ≠ generateSessionId t₂ r₂ := by
  intro h
  have hd := congrArg String.data h
  rw [generateSessionId_data, generateSessionId_data] at hd
  have hd' := List.append_cancel_left hd
  obtain ⟨hteq, -⟩ := append_cons_sep_inj '_' t₁.data t₂.data r₁.data r₂.data h₁ h₂ hd'
  exact hne (string_eq_of_data_eq hteq)

/-! ## Claims -/

/-- Claim C1: on every submission in which the database insert fails, the
handler does not invoke the notification function, the Global Submission
State Store is unchanged (no lead appended), the `submitted` flag remains
false if it was false, and the form fields keep their values. -/
theorem C1_persistence_failure_no_side_effects (env : Env) (s : ComponentState)
    (hv : validateLeadForm s.formData = []) (hdb : env.dbError = true) :
    ((handleSubmit env s).2).emailCalled = false ∧
    ((handleSubmit env s).1).store = s.store ∧
    (s.store.submitted = false → ((handleSubmit env s).1).store.submitted = false) ∧
    ((handleSubmit env s).1).formData = s.formData := by
  simp [handleSubmit, hv, hdb]

theorem C1_witness :
    validateLeadForm ⟨"Ana", "ana@x.com", "technology"⟩ = [] ∧
    (let env : Env := ⟨true, false, "2025-07-10T00:00:00.000Z", "1700000000000", "k3j9q1z8p"⟩
     let s : ComponentState :=
       ⟨⟨"Ana", "ana@x.com", "technology"⟩, [], false, ⟨false, []⟩, none⟩
     ((handleSubmit env s).2).emailCalled = false ∧
     ((handleSubmit env s).1).store = s.store ∧
     (s.store.submitted = false → ((handleSubmit env s).1).store.submitted = false) ∧
     ((handleSubmit env s).1).formData = s.formData) :=
  ⟨by decide,
   C1_persistence_failure_no_side_effects
     ⟨true, false, "2025-07-10T00:00:00.000Z", "1700000000000", "k3j9q1z8p"⟩
     ⟨⟨"Ana", "ana@x.com", "technology"⟩, [], false, ⟨false, []⟩, none⟩
     (by decide) rfl⟩

/-- Claim C2: on every submission in which the database insert succeeds and
the notification invoke fails, the outcome is still success: the lead is
appended to the store, `submitted` is set true, and the form fields are
reset; the notification failure does not change the resulting state. -/
theorem C2_notification_failure_still_success (env : Env) (s : ComponentState)
    (hv : validateLeadForm s.formData = []) (hdb : env.dbError = false)
    (_hem : env.emailError = true) :
    ((handleSubmit env s).2).emailCalled = true ∧
    ((handleSubmit env s).1).store.sessionLeads
      = s.store.sessionLeads ++
        [{ name := s.formData.name, email := s.formData.email,
           industry := s.formData.industry, submitted_at := env.nowIso,
           session_id := (getOrCreateSessionId env.genTime env.genRand s.storage).1 }] ∧
    ((handleSubmit env s).1).store.submitted = true ∧
    ((handleSubmit env s).1).formData = ⟨"", "", ""⟩ := by
  simp [handleSubmit, hv, hdb]

theorem C2_witness :
    validateLeadForm ⟨"Ana", "ana@x.com", "technology"⟩ = [] ∧
    (let env : Env := ⟨false, true, "2025-07-10T00:00:00.000Z", "1700000000000", "k3j9q1z8p"⟩
     let s : ComponentState :=
       ⟨⟨"Ana", "ana@x.com", "technology"⟩, [], false, ⟨false, []⟩, none⟩
     ((handleSubmit env s).2).emailCalled = true ∧
     ((handleSubmit env s).1).store.sessionLeads
       = s.store.sessionLeads ++
         [{ name := s.formData.name, email := s.formData.email,
            industry := s.formData.industry, submitted_at := env.nowIso,
            session_id := (getOrCreateSessionId env.genTime env.genRand s.storage).1 }] ∧
     ((handleSubmit env s).1).store.submitted = true ∧
     ((handleSubmit env s).1).formData = ⟨"", "", ""⟩) :=
  ⟨by decide,
   C2_notification_failure_still_success
     ⟨false, true, "2025-07-10T00:00:00.000Z", "1700000000000", "k3j9q1z8p"⟩
     ⟨⟨"Ana", "ana@x.com", "technology"⟩, [], false, ⟨false, []⟩, none⟩
     (by decide) rfl rfl⟩

/-- Claim C3: on every submission with valid fields where both remote calls
succeed, a lead whose `session_id` is exactly the value returned by
`getOrCreateSessionId` is appended to the store, `submitted` is set true,
and all three form fields are reset to the empty string. -/
theorem C3_success_appends_lead (env : Env) (s : ComponentState)
    (hv : validateLeadForm s.formData = []) (hdb : env.dbError = false)
    (_hem : env.emailError = false) :
    ((handleSubmit env s).1).store.sessionLeads
      = s.store.sessionLeads ++
        [{ name := s.formData.name, email := s.formData.email,
           industry := s.formData.industry, submitted_at := env.nowIso,
           session_id := (getOrCreateSessionId env.genTime env.genRand s.storage).1 }] ∧
    ((handleSubmit env s).1).store.submitted = true ∧
    ((handleSubmit env s).1).formData.name = "" ∧
    ((handleSubmit env s).1).formData.email = "" ∧
    ((handleSubmit env s).1).formData.industry = "" := by
  simp [handleSubmit, hv, hdb]

theorem C3_witness :
    validateLeadForm ⟨"Ana", "ana@x.com", "technology"⟩ = [] ∧
    (let env : Env := ⟨false, false, "2025-07-10T00:00:00.000Z", "1700000000000", "k3j9q1z8p"⟩
     let s : ComponentState :=
       ⟨⟨"Ana", "ana@x.com", "technology"⟩, [], false, ⟨false, []⟩, none⟩
     ((handleSubmit env s).1).store.sessionLeads
       = s.store.sessionLeads ++
         [{ name := s.formData.name, email := s.formData.email,
            industry := s.formData.industry, submitted_at := env.nowIso,
            session_id := (getOrCreateSessionId env.genTime env.genRand s.storage).1 }] ∧
     ((handleSubmit env s).1).store.submitted = true ∧
     ((handleSubmit env s).1).formData.name = "" ∧
     ((handleSubmit env s).1).formData.email = "" ∧
     ((handleSubmit env s).1).formData.industry = "") :=
  ⟨by decide,
   C3_success_appends_lead
     ⟨false, false, "2025-07-10T00:00:00.000Z", "1700000000000", "k3j9q1z8p"⟩
     ⟨⟨"Ana", "ana@x.com", "technology"⟩, [], false, ⟨false, []⟩, none⟩
     (by decide) rfl rfl⟩

/-- Claim C4: on every submission whose validation returns a non-empty
error sequence, neither remote call is made, the in-flight flag is never
set, and the store is unchanged; the only state change is storing the
validation errors. -/
theorem C4_validation_errors_block_submission (env : Env) (s : ComponentState)
    (hv : validateLeadForm s.formData ≠ []) :
    (handleSubmit env s).2 = ⟨false, false, false⟩ ∧
    ((handleSubmit env s).1).store = s.store ∧
    ((handleSubmit env s).1).isSubmitting = s.isSubmitting ∧
    (handleSubmit env s).1 = { s with validationErrors := validateLeadForm s.formData } := by
  have hlen : ¬ (validateLeadForm s.formData).length = 0 := by
    simpa [List.length_eq_zero] using hv
  simp [handleSubmit, hlen]

theorem C4_witness :
    validateLeadForm ⟨"", "bad", ""⟩ ≠ [] ∧
    (validateLeadForm ⟨"", "bad", ""⟩).length = 3 ∧
    (let env : Env := ⟨false, false, "2025-07-10T00:00:00.000Z", "1700000000000", "k3j9q1z8p"⟩
     let s : ComponentState := ⟨⟨"", "bad", ""⟩, [], false, ⟨false, []⟩, none⟩
     (handleSubmit env s).2 = ⟨false, false, false⟩ ∧
     ((handleSubmit env s).1).store = s.store ∧
     ((handleSubmit env s).1).isSubmitting = s.isSubmitting ∧
     (handleSubmit env s).1 = { s with validationErrors := validateLeadForm s.formData }) :=
  ⟨by decide, by decide,
   C4_validation_errors_block_submission
     ⟨false, false, "2025-07-10T00:00:00.000Z", "1700000000000", "k3j9q1z8p"⟩
     ⟨⟨"", "bad", ""⟩, [], false, ⟨false, []⟩, none⟩
     (by decide)⟩

/-- Claim C6: while a submission is in flight (`isSubmitting = true`) a
submit request is ignored (the trigger control is disabled by the flag),
and starting from a non-in-flight state the flag is false again once the
attempt resolves, whether it fails validation, fails persistence, or
succeeds. -/
theorem C6_reentrancy_guard (env : Env) (s : ComponentState) :
    (s.isSubmitting = true →
      submitTrigger env s = (s, ⟨false, false, false⟩)) ∧
    (s.isSubmitting = false →
      ((submitTrigger env s).1).isSubmitting = false) := by
  constructor
  · intro h
    simp [submitTrigger, h]
  · intro h
    by_cases hv : (validateLeadForm s.formData).length = 0
    · by_cases hdb : env.dbError = true
      · simp [submitTrigger, h, handleSubmit, hv, hdb]
      · simp [submitTrigger, h, handleSubmit, hv, hdb]
    · simp [submitTrigger, h, handleSubmit, hv]

theorem C6_witness :
    (submitTrigger ⟨false, false, "t", "1700000000000", "k3j9q1z8p"⟩
        ⟨⟨"Ana", "ana@x.com", "technology"⟩, [], true, ⟨false, []⟩, none⟩
      = (⟨⟨"Ana", "ana@x.com", "technology"⟩, [], true, ⟨false, []⟩, none⟩,
         ⟨false, false, false⟩)) ∧
    ((submitTrigger ⟨false, false, "t", "1700000000000", "k3j9q1z8p"⟩
        ⟨⟨"Ana", "ana@x.com", "technology"⟩, [], false, ⟨false, []⟩, none⟩).1).isSubmitting
      = false :=
  ⟨(C6_reentrancy_guard ⟨false, false, "t", "1700000000000", "k3j9q1z8p"⟩
      ⟨⟨"Ana", "ana@x.com", "technology"⟩, [], true, ⟨false, []⟩, none⟩).1 rfl,
   (C6_reentrancy_guard ⟨false, false, "t", "1700000000000", "k3j9q1z8p"⟩
      ⟨⟨"Ana", "ana@x.com", "technology"⟩, [], false, ⟨false, []⟩, none⟩).2 rfl⟩

/-- Claim C7: `getOrCreateSessionId` is idempotent: for every storage state
the stored identifier equals the returned one after the first call (written
back before returning), and a second call with no intervening
`clearSessionId` — whatever fresh generation inputs it would use — returns
the same value. -/
theorem C7_getOrCreateSessionId_idempotent (st : Storage) (t₁ r₁ t₂ r₂ : String) :
    (getOrCreateSessionId t₁ r₁ st).2 = some (getOrCreateSessionId t₁ r₁ st).1 ∧
    (getOrCreateSessionId t₂ r₂ (getOrCreateSessionId t₁ r₁ st).2).1
      = (getOrCreateSessionId t₁ r₁ st).1 := by
  refine ⟨getOrCreateSessionId_writes_back t₁ r₁ st, ?_⟩
  rw [getOrCreateSessionId_writes_back t₁ r₁ st]
  have h := getOrCreateSessionId_fst_not_isEmpty t₁ r₁ st
  generalize (getOrCreateSessionId t₁ r₁ st).1 = id at h ⊢
  simp [getOrCreateSessionId, h]

/-- Claim C5 (code bug): the spec requires a user-visible submission-failed
indication on persistence failure, but the handler's `catch` only logs
("Error handling removed for 4-issue version"): on a persistence-failure
run the resulting component state is identical to the pre-submission state
except that the stored validation errors are cleared and the session id is
written — the form stays populated, but no state field records the
failure, so nothing can be surfaced to the user. -/
theorem C5_no_user_visible_failure_indication :
    (handleSubmit ⟨true, false, "2025-07-10T00:00:00.000Z", "1700000000000", "k3j9q1z8p"⟩
        ⟨⟨"Ana", "ana@x.com", "technology"⟩, [⟨"email", "stale"⟩], false, ⟨false, []⟩, none⟩).1
      = ⟨⟨"Ana", "ana@x.com", "technology"⟩, [], false, ⟨false, []⟩,
         some "session_1700000000000_k3j9q1z8p"⟩ := by
  decide

/-- Claim C8: `clearSessionId` removes the stored identifier; the next
`getOrCreateSessionId` call generates and stores a fresh identifier, and —
under the no-collision assumption the spec calls "probabilistically": the
`Date.now()` component of the fresh id differs from the one of the
previously issued id (both are underscore-free digit strings) — the fresh
identifier differs from the previously issued one. -/
theorem C8_clear_then_fresh_differs (st : Storage) (t r tPrev rPrev : String)
    (ht : '_' ∉ t.data) (htPrev : '_' ∉ tPrev.data) (hne : t ≠ tPrev) :
    clearSessionId st = none ∧
    getOrCreateSessionId t r (clearSessionId st)
      = (generateSessionId t r, some (generateSessionId t r)) ∧
    generateSessionId t r ≠ generateSessionId tPrev rPrev :=
  ⟨rfl, rfl, generateSessionId_ne_of_time_ne ht htPrev hne⟩

theorem C8_witness :
    ('_' ∉ "1700000000001".data) ∧ ('_' ∉ "1700000000000".data) ∧
    ("1700000000001" : String) ≠ "1700000000000" ∧
    (clearSessionId (some "session_1700000000000_k3j9q1z8p") = none ∧
     getOrCreateSessionId "1700000000001" "b7m2w9d4q"
         (clearSessionId (some "session_1700000000000_k3j9q1z8p"))
       = (generateSessionId "1700000000001" "b7m2w9d4q",
          some (generateSessionId "1700000000001" "b7m2w9d4q")) ∧
     generateSessionId "1700000000001" "b7m2w9d4q"
       ≠ generateSessionId "1700000000000" "k3j9q1z8p") :=
  ⟨by decide, by decide, by decide,
   C8_clear_then_fresh_differs (some "session_1700000000000_k3j9q1z8p")
     "1700000000001" "b7m2w9d4q" "1700000000000" "k3j9q1z8p"
     (by decide) (by decide) (by decide)⟩

/-- Claim C9: for every storage state (a stored empty string is treated as
absent), `getOrCreateSessionId` returns a non-empty string; consequently in
every successful submission each lead in the store is either one that was
already there or carries a non-empty `session_id`. -/
theorem C9_session_id_nonempty (st : Storage) (t r : String) (env : Env)
    (s : ComponentState)
    (hv : validateLeadForm s.formData = []) (hdb : env.dbError = false) :
    ((getOrCreateSessionId t r st).1).isEmpty = false ∧
    ∀ l ∈ ((handleSubmit env s).1).store.sessionLeads,
      l ∈ s.store.sessionLeads ∨ l.session_id.isEmpty = false := by
  refine ⟨getOrCreateSessionId_fst_not_isEmpty t r st, ?_⟩
  intro l hl
  simp [handleSubmit, hv, hdb] at hl
  rcases hl with h | h
  · exact Or.inl h
  · right
    rw [h]
    exact getOrCreateSessionId_fst_not_isEmpty env.genTime env.genRand s.storage

theorem C9_witness :
    validateLeadForm ⟨"Ana", "ana@x.com", "technology"⟩ = [] ∧
    (((getOrCreateSessionId "1700000000000" "k3j9q1z8p" (some "")).1).isEmpty = false ∧
     ∀ l ∈ ((handleSubmit
               ⟨false, false, "2025-07-10T00:00:00.000Z", "1700000000000", "k3j9q1z8p"⟩
               ⟨⟨"Ana", "ana@x.com", "technology"⟩, [], false, ⟨false, []⟩,
                some ""⟩).1).store.sessionLeads,
       l ∈ ([] : List Lead) ∨ l.session_id.isEmpty = false) :=
  ⟨by decide,
   C9_session_id_nonempty (some "") "1700000000000" "k3j9q1z8p"
     ⟨false, false, "2025-07-10T00:00:00.000Z", "1700000000000", "k3j9q1z8p"⟩
     ⟨⟨"Ana", "ana@x.com", "technology"⟩, [], false, ⟨false, []⟩, some ""⟩
     (by decide) rfl⟩

/-- After adding the column and backfilling, every row carries
`industry = 'Other'`. -/
theorem backfill_addColumn {α : Type} (pre : List α) :
    backfillIndustry (addIndustryColumn pre)
      = pre.map (fun a => { payload := a, industry := some "Other" }) := by
  induction pre with
  | nil => rfl
  | cons a l ih =>
      simp only [addIndustryColumn, List.map_cons] at ih ⊢
      simp only [backfillIndustry, List.map_cons] at ih ⊢
      simp only [List.cons.injEq]
      exact ⟨rfl, ih⟩

/-- The migration succeeds on every pre-existing table state and yields
exactly the backfilled rows, NOT NULL enforced, and the default set. -/
theorem migration_eq {α : Type} (pre : List α) :
    migration pre
      = some { rows := pre.map (fun a => { payload := a, industry := some "Other" }),
               industryNotNull := true, industryDefault := some "Other" } := by
  have hall : (pre.map (fun a => ({ payload := a, industry := some "Other" } : Row α))).all
      (fun r => r.industry.isSome) = true := by
    rw [List.all_eq_true]
    intro r hr
    rw [List.mem_map] at hr
    obtain ⟨a, -, rfl⟩ := hr
    rfl
  simp [migration, backfill_addColumn, setIndustryNotNull, hall, setIndustryDefault]

/-- Claim C10: the four-phase industry migration (add nullable column,
backfill 'Other' into null rows, enforce NOT NULL, set the default),
applied in order to any pre-existing table state, succeeds and leaves no
row with a null industry: every (backfilled) row has industry 'Other',
the column is NOT NULL, and the default is 'Other'. -/
theorem C10_migration_backfills_all_rows {α : Type} (pre : List α) :
    (migration pre).isSome = true ∧
    ∀ t, migration pre = some t →
      t.industryNotNull = true ∧ t.industryDefault = some "Other" ∧
      ∀ r ∈ t.rows, r.industry ≠ none ∧ r.industry = some "Other" := by
  refine ⟨by rw [migration_eq]; rfl, ?_⟩
  intro t ht
  rw [migration_eq] at ht
  obtain rfl := (Option.some.injEq _ _).mp ht.symm
  refine ⟨rfl, rfl, ?_⟩
  intro r hr
  rw [List.mem_map] at hr
  obtain ⟨a, -, rfl⟩ := hr
  exact ⟨by simp, rfl⟩

theorem C10_witness :
    migration ([0, 1] : List Nat)
      = some { rows := [{ payload := 0, industry := some "Other" },
                        { payload := 1, industry := some "Other" }],
               industryNotNull := true, industryDefault := some "Other" } ∧
    ({ payload := 0, industry := some "Other" } : Row Nat)
      ∈ [({ payload := 0, industry := some "Other" } : Row Nat),
         { payload := 1, industry := some "Other" }] ∧
    (({ payload := 0, industry := some "Other" } : Row Nat).industry ≠ none ∧
     ({ payload := 0, industry := some "Other" } : Row Nat).industry = some "Other") :=
  ⟨by decide, by decide,
   ((C10_migration_backfills_all_rows ([0, 1] : List Nat)).2
       { rows := [{ payload := 0, industry := some "Other" },
                  { payload := 1, industry := some "Other" }],
         industryNotNull := true, industryDefault := some "Other" }
       (by decide)).2.2
     { payload := 0, industry := some "Other" } (by decide)⟩

end LeadCapture
